import Mathlib

/-!
Shallow embedding of `ai_models/__main__.py": the command-line resolution
function `_main` (argument post-processing, cross-option validation) and the
dispatch function `run` (mode selection, missing-asset error handling,
provenance dump).  External collaborators (the model registry, the model
object's operations) are abstracted as trace events; the model's run/remote
calls may raise a `FileNotFoundError`, which is represented by a behaviour
flag.  Machine-visible side effects (printing, logging configuration, file
truncation) are recorded as an ordered event trace.
-/

namespace AiModels

/-- Observable side effects of one invocation, in program order. -/
inductive Event where
  /-- the `--models` branch: print the sorted list of available models -/
  | printModels
  /-- `logging.basicConfig(level=...)` -/
  | configLogging (level : String)
  /-- `load_model(cfg["model"], ...)` -/
  | loadModel (name : String)
  /-- `model.print_fields()` -/
  | printFields
  /-- `model.print_requests()` -/
  | printRequests
  /-- `model.print_assets_list()` -/
  | printAssetsList
  /-- `model.remote(cfg, model_args)` invoked -/
  | remote
  /-- `model.run()` invoked -/
  | runLocal
  /-- `LOG.exception(e)` -/
  | logException
  /-- `LOG.error(...)` with the given formatted message -/
  | logError (msg : String)
  /-- `model.finalise()` -/
  | finalise
  /-- `open(path, "w")`: the file is created or truncated -/
  | openTruncate (path : String)
  /-- `model.provenance()` invoked -/
  | callProvenance
  /-- `json.dump(prov, f, indent=4)` completed for the given path -/
  | writeJson (path : String)
  deriving DecidableEq, Repr

/-- How the Python process ends (or falls off the end of `main`). -/
inductive Outcome where
  /-- `sys.exit(code)` -/
  | exited (code : Nat)
  /-- `parser.error(msg)`: prints usage plus `msg` and exits with status 2 -/
  | usageError (msg : String)
  /-- uncaught `ValueError` from `dict(kv.split("=") ...)` (traceback exit) -/
  | valueError
  /-- uncaught `KeyError` from `cfg["model"]` when the positional was never declared -/
  | keyError
  /-- uncaught `AttributeError` from `args.model` when the positional was never declared -/
  | attributeError
  /-- an uncaught exception out of a collaborator call (traceback exit) -/
  | raised
  /-- `run` returned normally; the process later exits with status 0 -/
  | completed
  deriving DecidableEq, Repr

/-- Exit status of the process for each outcome.  `parser.error` uses
argparse's conventional status 2; an uncaught exception exits with 1. -/
def usageExitStatus : Nat := 2

/-- Process exit status produced by each outcome. -/
def exitCodeOf : Outcome → Nat
  | Outcome.exited c => c
  | Outcome.usageError _ => usageExitStatus
  | Outcome.completed => 0
  | _ => 1

/-- Whether the outcome is an argparse usage error (`parser.error`). -/
def isUsageError : Outcome → Bool
  | Outcome.usageError _ => true
  | _ => false

/-- Python truthiness of an `Optional[str]`: `None` and `""` are falsy. -/
def truthy : Option String → Bool
  | none => false
  | some s => s != ""

/-- `os.path.join(a, b)` for two POSIX components. -/
def pathJoin (a b : String) : String :=
  if b.startsWith "/" then b
  else if a = "" || a.endsWith "/" then a ++ b
  else a ++ "/" ++ b

/-- `argparse` default fallback: a flag value if given, else the environment
variable (`os.getenv`) captured as the option's default. -/
def optionFallback (flag envVal : Option String) : Option String :=
  match flag with
  | some v => some v
  | none => envVal

/-! ### Python `dict` as an insertion-ordered association list -/

/-- `d[k] = v` on a Python `dict`: overwrite in place if the key exists,
else append a new binding. -/
def dictInsert (d : List (String × String)) (k v : String) : List (String × String) :=
  if d.any (fun p => p.1 = k) then
    d.map (fun p => if p.1 = k then (k, v) else p)
  else d ++ [(k, v)]

/-- `d.get(k)` on a Python `dict` (keys are unique, so first match). -/
def dictLookup (k : String) : List (String × String) → Option String
  | [] => none
  | (k2, v) :: rest => if k2 = k then some v else dictLookup k rest

/-! ### Metadata resolution (`__main__.py` lines 257-266) -/

/-- Python `kv.split("=")` over the characters: split on **every**
occurrence of `'='`, keeping empty parts. -/
def splitEqAux (acc : List Char) : List Char → List String
  | [] => [String.mk acc.reverse]
  | c :: rest =>
    if c = '=' then String.mk acc.reverse :: splitEqAux [] rest
    else splitEqAux (c :: acc) rest

/-- Python `kv.split("=")`. -/
def splitEq (s : String) : List String :=
  splitEqAux [] s.data

/-- `dict(kv.split("=") for kv in tokens)` starting from an accumulated dict:
`str.split("=")` splits on **every** `"="`, and `dict` demands exactly two
parts per element, raising `ValueError` otherwise. -/
def metadataDictFrom (d : List (String × String)) :
    List String → Except Unit (List (String × String))
  | [] => Except.ok d
  | kv :: rest =>
    match splitEq kv with
    | [k, v] => metadataDictFrom (dictInsert d k v) rest
    | _ => Except.error ()

/-- `dict(kv.split("=") for kv in tokens)` (line 260). -/
def metadataDict (toks : List String) : Except Unit (List (String × String)) :=
  metadataDictFrom [] toks

/-- Lines 257-266: build the metadata dict from the repeated `--metadata`
list (`None` becomes `[]`), then let `--expver` overwrite key `"expver"`
and `--class` overwrite key `"class"`. -/
def resolveMetadata (metadata : Option (List String)) (expver cls : Option String) :
    Except Unit (List (String × String)) :=
  match metadataDict (metadata.getD []) with
  | Except.error e => Except.error e
  | Except.ok md =>
    let md1 := match expver with
      | some e => dictInsert md "expver" e
      | none => md
    let md2 := match cls with
      | some c => dictInsert md1 "class" c
      | none => md1
    Except.ok md2

/-- Modelled from the spec claim wording only (for comparison with
`metadataDict`): split a token on the **first** `"="` into one key and one
value; `none` when the token lacks `"="`. -/
def splitFirstPair (t : String) : Option (String × String) :=
  match splitEq t with
  | [] => none
  | [_] => none
  | k :: rest => some (k, String.intercalate "=" rest)

/-- Modelled from the spec claim wording only: metadata map built by
splitting each token on the first `"="`. -/
def splitFirstMapFrom (d : List (String × String)) :
    List String → Option (List (String × String))
  | [] => some d
  | t :: rest =>
    match splitFirstPair t with
    | some (k, v) => splitFirstMapFrom (dictInsert d k v) rest
    | none => none

/-- Modelled from the spec claim wording only: see `splitFirstMapFrom`. -/
def splitFirstMap (toks : List String) : Option (List (String × String)) :=
  splitFirstMapFrom [] toks

/-! ### `shlex` (used by the remediation command, line 313) -/

/-- Characters `shlex.quote` leaves unquoted: ASCII `\w` plus `@ % + = : , . - /`. -/
def shlexSafeChar (c : Char) : Bool :=
  c.isAlphanum || c == '_' || c == '@' || c == '%' || c == '+' || c == '=' ||
    c == ':' || c == ',' || c == '.' || c == '/' || c == '-'

/-- A single-quote character as a string (ASCII 39). -/
def singleQuote : String := String.singleton (Char.ofNat 39)

/-- Python `shlex.quote`: scan the characters for one outside the safe set. -/
def shlexQuote (s : String) : String :=
  if s = "" then singleQuote ++ singleQuote
  else if s.data.all shlexSafeChar then s
  else
    singleQuote ++
      s.replace singleQuote (singleQuote ++ "\"" ++ singleQuote ++ "\"" ++ singleQuote) ++
      singleQuote

/-- Python `shlex.join`. -/
def shlexJoin (args : List String) : String :=
  String.intercalate " " (args.map shlexQuote)

/-! ### Raw parsed options and the resolved configuration -/

/-- The argparse namespace after `parse_known_args`, with the environment
fallbacks already folded into the defaults (as argparse does at declaration
time).  `model` is `none` exactly when the positional was never declared,
i.e. when `"--models"` appeared in `argv` (line 215). -/
structure RawOptions where
  models : Bool
  debug : Bool
  verbose : Nat
  retrieve_requests : Bool
  archive_requests : Option String
  requests_extra : Option String
  json : Bool
  dump_provenance : Option String
  input : String
  file : Option String
  output : String
  date : String
  time : Int
  assets : String
  assets_sub_directory : Bool
  assets_list : Bool
  download_assets : Bool
  path : Option String
  fields : Bool
  expver : Option String
  class_ : Option String
  metadata : Option (List String)
  num_threads : Int
  lead_time : Int
  hindcast_reference_year : Option String
  staging_dates : Option String
  only_gpu : Bool
  deterministic : Bool
  model_version : String
  model : Option String
  remote_url : Option String
  remote_token : Option String
  deriving DecidableEq, Repr

/-- The parts of the resolved configuration that `run` reads. -/
structure Config where
  model : String
  fields : Bool
  retrieve_requests : Bool
  requests_extra : Option String
  archive_requests : Option String
  assets_list : Bool
  remote_url : Option String
  dump_provenance : Option String
  assets : String
  path : String
  input : String
  metadata : List (String × String)
  deriving DecidableEq, Repr

/-- Whether the model run raises; stands for the external collaborator. -/
structure ModelBehavior where
  /-- `model.run()` / `model.remote(...)` raises `FileNotFoundError` -/
  runRaises : Bool
  /-- `model.provenance()` (or the dump) raises -/
  provRaises : Bool
  deriving DecidableEq, Repr

/-- Line 215: the `model` positional is declared only when the literal token
`"--models"` does not occur in `argv`. -/
def modelArgRequired (argv : List String) : Bool :=
  !(argv.contains "--models")

/-- Lines 242-243: `args.assets = os.path.join(args.assets, args.model)`
when the sub-directory flag is set; `args.model` raises `AttributeError`
when the positional was never declared. -/
def resolveAssets (opts : RawOptions) : Except Outcome String :=
  if opts.assets_sub_directory then
    match opts.model with
    | some m => Except.ok (pathJoin opts.assets m)
    | none => Except.error Outcome.attributeError
  else Except.ok opts.assets

/-- Lines 245-246: `args.path = f"{args.model}.grib"` when no `--path`. -/
def resolvePath (opts : RawOptions) : Except Outcome String :=
  match opts.path with
  | some p => Except.ok p
  | none =>
    match opts.model with
    | some m => Except.ok (m ++ ".grib")
    | none => Except.error Outcome.attributeError

/-- Lines 248-249: an explicit `--file` forces the input source to `"file"`. -/
def resolveInput (file : Option String) (input : String) : String :=
  if file.isSome then "file" else input

/-- Lines 251-255: `logging.basicConfig` runs only when neither `--fields`
nor `--retrieve-requests` is set. -/
def loggingEvents (opts : RawOptions) : List Event :=
  if !opts.fields && !opts.retrieve_requests then
    [Event.configLogging (if opts.debug then "DEBUG" else "INFO")]
  else []

/-- The configuration record handed to `run` (the `vars(args)` dictionary
restricted to the fields `run` reads). -/
def buildConfig (opts : RawOptions) (name assets path : String)
    (md : List (String × String)) : Config where
  model := name
  fields := opts.fields
  retrieve_requests := opts.retrieve_requests
  requests_extra := opts.requests_extra
  archive_requests := opts.archive_requests
  assets_list := opts.assets_list
  remote_url := opts.remote_url
  dump_provenance := opts.dump_provenance
  assets := assets
  path := path
  input := resolveInput opts.file opts.input
  metadata := md

/-- Lines 237-278 after parsing: the `--models` early exit, the derived
fields, the metadata merge and the two `parser.error` checks, producing the
configuration handed to `run` (pure field computations are gathered at the
`Config` construction; none of them has an observable effect).  The
`cfg["model"]` lookup that `run`/`load_model` performs raises `KeyError`
when the positional was never declared, so `Config.model` is resolved here. -/
def resolveConfig (opts : RawOptions) : List Event × Except Outcome Config :=
  if opts.models then
    ([Event.printModels], Except.error (Outcome.exited 0))
  else
    match resolveAssets opts with
    | Except.error o => ([], Except.error o)
    | Except.ok assets =>
      match resolvePath opts with
      | Except.error o => ([], Except.error o)
      | Except.ok path =>
        let ev := loggingEvents opts
        match resolveMetadata opts.metadata opts.expver opts.class_ with
        | Except.error _ => (ev, Except.error Outcome.valueError)
        | Except.ok md =>
          if truthy opts.requests_extra && !opts.retrieve_requests &&
              !truthy opts.archive_requests then
            (ev, Except.error (Outcome.usageError
              "You need to specify --retrieve-requests or --archive-requests"))
          else if opts.remote_url.isSome && !opts.remote_token.isSome then
            (ev, Except.error (Outcome.usageError "You need to specify --remote-token"))
          else
            match opts.model with
            | none => (ev, Except.error Outcome.keyError)
            | some name =>
              (ev, Except.ok (buildConfig opts name assets path md))

/-- `run(cfg, model_args)` (lines 281-325): load the model, dispatch exactly
one execution mode in the source's priority order, catch a
`FileNotFoundError` from the run with the remediation message built from
`sys.argv` via `shlex.join`, then finalise and optionally dump provenance
(the file is opened for writing before `model.provenance()` is called). -/
def runStep (prog : String) (argv : List String) (cfg : Config)
    (beh : ModelBehavior) : List Event × Outcome :=
  let ld := [Event.loadModel cfg.model]
  if cfg.fields then
    (ld ++ [Event.printFields], Outcome.exited 0)
  else if cfg.retrieve_requests ||
      (truthy cfg.requests_extra && !truthy cfg.archive_requests) then
    (ld ++ [Event.printRequests], Outcome.exited 0)
  else if cfg.assets_list then
    (ld ++ [Event.printAssetsList], Outcome.exited 0)
  else
    let runEv := if cfg.remote_url.isSome then Event.remote else Event.runLocal
    if beh.runRaises then
      (ld ++ [runEv, Event.logException,
        Event.logError
          ("It is possible that some files requited by " ++ cfg.model ++ " are missing."),
        Event.logError "Rerun the command as:",
        Event.logError (shlexJoin (prog :: "--download-assets" :: argv))],
       Outcome.exited 1)
    else
      let fin := ld ++ [runEv, Event.finalise]
      match cfg.dump_provenance with
      | none => (fin, Outcome.completed)
      | some p =>
        if p = "" then (fin, Outcome.completed)
        else
          let pe := fin ++ [Event.openTruncate p, Event.callProvenance]
          if beh.provRaises then (pe, Outcome.raised)
          else (pe ++ [Event.writeJson p], Outcome.completed)

/-- `_main(argv)` after parsing: resolution then dispatch.  `prog` is
`sys.argv[0]` and `argv` is `sys.argv[1:]`. -/
def mainStep (prog : String) (argv : List String) (opts : RawOptions)
    (beh : ModelBehavior) : List Event × Outcome :=
  match resolveConfig opts with
  | (ev, Except.error o) => (ev, o)
  | (ev, Except.ok cfg) =>
    let r := runStep prog argv cfg beh
    (ev ++ r.1, r.2)

/-! ### Execution modes (spec section 4.3) -/

/-- The closed set of execution modes of `run`. -/
inductive ExecMode where
  | showFields
  | printRequests
  | listAssets
  | remoteRun
  | localRun
  deriving DecidableEq, Repr

/-- The mode `run` selects, read off the source's `if` chain in order. -/
def modeOf (cfg : Config) : ExecMode :=
  if cfg.fields then ExecMode.showFields
  else if cfg.retrieve_requests ||
      (truthy cfg.requests_extra && !truthy cfg.archive_requests) then
    ExecMode.printRequests
  else if cfg.assets_list then ExecMode.listAssets
  else if cfg.remote_url.isSome then ExecMode.remoteRun
  else ExecMode.localRun

/-- The model operation each mode invokes. -/
def modeEvent : ExecMode → Event
  | ExecMode.showFields => Event.printFields
  | ExecMode.printRequests => Event.printRequests
  | ExecMode.listAssets => Event.printAssetsList
  | ExecMode.remoteRun => Event.remote
  | ExecMode.localRun => Event.runLocal

/-- The three informational modes. -/
def informational : ExecMode → Bool
  | ExecMode.showFields => true
  | ExecMode.printRequests => true
  | ExecMode.listAssets => true
  | _ => false

/-- Events that are one of the five mode operations. -/
def isModeEvent : Event → Bool
  | Event.printFields => true
  | Event.printRequests => true
  | Event.printAssetsList => true
  | Event.remote => true
  | Event.runLocal => true
  | _ => false

/-- Events that invoke the model's run/remote operation. -/
def isRunEvent : Event → Bool
  | Event.remote => true
  | Event.runLocal => true
  | _ => false

/-- Events that load a model. -/
def isLoadEvent : Event → Bool
  | Event.loadModel _ => true
  | _ => false

/-! ### Concrete invocations used by witnesses and counterexamples -/

/-- A plain invocation of model `modelx` with every option at its parser
default and no environment variables set. -/
def baseOpts : RawOptions where
  models := false
  debug := false
  verbose := 0
  retrieve_requests := false
  archive_requests := none
  requests_extra := none
  json := false
  dump_provenance := none
  input := "mars"
  file := none
  output := "file"
  date := "-1"
  time := 12
  assets := "."
  assets_sub_directory := false
  assets_list := false
  download_assets := false
  path := none
  fields := false
  expver := none
  class_ := none
  metadata := none
  num_threads := 1
  lead_time := 240
  hindcast_reference_year := none
  staging_dates := none
  only_gpu := false
  deterministic := false
  model_version := "latest"
  model := some "modelx"
  remote_url := none
  remote_token := none

/-- A model whose collaborator calls all succeed. -/
def baseBeh : ModelBehavior where
  runRaises := false
  provRaises := false

/-- The configuration `resolveConfig baseOpts` produces. -/
def baseCfg : Config where
  model := "modelx"
  fields := false
  retrieve_requests := false
  requests_extra := none
  archive_requests := none
  assets_list := false
  remote_url := none
  dump_provenance := none
  assets := "."
  path := "modelx.grib"
  input := "mars"
  metadata := []

/-! ### Dictionary lemmas -/

theorem dictLookup_replace (k v : String) :
    ∀ d : List (String × String), d.any (fun p => p.1 = k) = true →
      dictLookup k (d.map (fun p => if p.1 = k then (k, v) else p)) = some v := by
  intro d
  induction d with
  | nil => intro h; simp at h
  | cons hd tl ih =>
    obtain ⟨k2, v2⟩ := hd
    intro h
    by_cases hk : k2 = k
    · subst hk
      rw [List.map_cons]
      dsimp only
      rw [if_pos rfl]
      show (if k2 = k2 then some v else _) = some v
      rw [if_pos rfl]
    · simp only [List.any_cons, Bool.or_eq_true, decide_eq_true_eq] at h
      rcases h with h | h
      · exact absurd h hk
      · rw [List.map_cons]
        dsimp only
        rw [if_neg hk]
        show (if k2 = k then some v2 else _) = some v
        rw [if_neg hk]
        exact ih (by simp only [List.any_eq_true, decide_eq_true_eq] at h ⊢; exact h)

theorem dictLookup_append_of_none (k : String) (d d2 : List (String × String))
    (h : dictLookup k d = none) : dictLookup k (d ++ d2) = dictLookup k d2 := by
  induction d with
  | nil => simp [dictLookup]
  | cons hd tl ih =>
    obtain ⟨k2, v2⟩ := hd
    by_cases hk : k2 = k
    · exfalso
      rw [show dictLookup k ((k2, v2) :: tl) = if k2 = k then some v2 else dictLookup k tl
            from rfl, if_pos hk] at h
      exact Option.some_ne_none v2 h
    · rw [show dictLookup k ((k2, v2) :: tl) = if k2 = k then some v2 else dictLookup k tl
            from rfl, if_neg hk] at h
      rw [List.cons_append,
        show dictLookup k ((k2, v2) :: (tl ++ d2)) =
          if k2 = k then some v2 else dictLookup k (tl ++ d2) from rfl,
        if_neg hk]
      exact ih h

theorem dictLookup_none_of_not_any (k : String) (d : List (String × String))
    (h : d.any (fun p => p.1 = k) = false) : dictLookup k d = none := by
  induction d with
  | nil => rfl
  | cons hd tl ih =>
    obtain ⟨k2, v2⟩ := hd
    simp only [List.any_cons, Bool.or_eq_false_iff, decide_eq_false_iff_not] at h
    rw [show dictLookup k ((k2, v2) :: tl) = if k2 = k then some v2 else dictLookup k tl
          from rfl, if_neg h.1]
    exact ih h.2

/-- `d[k] = v` makes `d.get(k)` return `v`. -/
theorem dictLookup_insert_self (d : List (String × String)) (k v : String) :
    dictLookup k (dictInsert d k v) = some v := by
  unfold dictInsert
  by_cases h : d.any (fun p => p.1 = k) = true
  · rw [if_pos h]
    exact dictLookup_replace k v d h
  · rw [if_neg h]
    rw [dictLookup_append_of_none k d _
      (dictLookup_none_of_not_any k d (Bool.not_eq_true _ ▸ h))]
    show (if k = k then some v else none) = some v
    rw [if_pos rfl]

theorem dictLookup_map_other (k k2 v : String) (hne : k ≠ k2) :
    ∀ d : List (String × String),
      dictLookup k (d.map (fun p => if p.1 = k2 then (k2, v) else p)) = dictLookup k d := by
  intro d
  induction d with
  | nil => rfl
  | cons hd tl ih =>
    obtain ⟨k3, v3⟩ := hd
    rw [List.map_cons]
    dsimp only
    by_cases hk3 : k3 = k2
    · rw [if_pos hk3]
      rw [show dictLookup k ((k2, v) :: List.map (fun p => if p.1 = k2 then (k2, v) else p) tl) =
            if k2 = k then some v else dictLookup k (List.map (fun p => if p.1 = k2 then (k2, v) else p) tl)
          from rfl,
          if_neg (fun he => hne he.symm)]
      rw [show dictLookup k ((k3, v3) :: tl) = if k3 = k then some v3 else dictLookup k tl from rfl,
          if_neg (hk3 ▸ fun he => hne he.symm)]
      exact ih
    · rw [if_neg hk3]
      rw [show dictLookup k ((k3, v3) :: List.map (fun p => if p.1 = k2 then (k2, v) else p) tl) =
            if k3 = k then some v3 else dictLookup k (List.map (fun p => if p.1 = k2 then (k2, v) else p) tl)
          from rfl,
          show dictLookup k ((k3, v3) :: tl) = if k3 = k then some v3 else dictLookup k tl from rfl]
      by_cases hk : k3 = k
      · rw [if_pos hk, if_pos hk]
      · rw [if_neg hk, if_neg hk]
        exact ih

theorem dictLookup_append_of_some (k v' : String) (d d2 : List (String × String))
    (h : dictLookup k d = some v') : dictLookup k (d ++ d2) = some v' := by
  induction d with
  | nil => simp [dictLookup] at h
  | cons hd tl ih =>
    obtain ⟨k2, v2⟩ := hd
    rw [show dictLookup k ((k2, v2) :: tl) = if k2 = k then some v2 else dictLookup k tl
          from rfl] at h
    rw [List.cons_append,
      show dictLookup k ((k2, v2) :: (tl ++ d2)) =
        if k2 = k then some v2 else dictLookup k (tl ++ d2) from rfl]
    by_cases hk : k2 = k
    · rw [if_pos hk] at h; rw [if_pos hk]; exact h
    · rw [if_neg hk] at h; rw [if_neg hk]; exact ih h

/-- `d[k2] = v` leaves `d.get(k)` unchanged for `k ≠ k2`. -/
theorem dictLookup_insert_other (d : List (String × String)) (k k2 v : String)
    (hne : k ≠ k2) : dictLookup k (dictInsert d k2 v) = dictLookup k d := by
  unfold dictInsert
  by_cases h : d.any (fun p => p.1 = k2) = true
  · rw [if_pos h]
    exact dictLookup_map_other k k2 v hne d
  · rw [if_neg h]
    match he : dictLookup k d with
    | some v' => exact dictLookup_append_of_some k v' d _ he
    | none =>
      rw [dictLookup_append_of_none k d _ he]
      show (if k2 = k then some v else none) = none
      rw [if_neg (fun hc => hne hc.symm)]

/-! ### Metadata lemmas -/

/-- A token that does not split into exactly two parts aborts the dict
construction with a `ValueError`, wherever it sits in the list. -/
theorem metadataDictFrom_error (toks : List String) :
    ∀ d : List (String × String),
      (∃ t ∈ toks, (splitEq t).length ≠ 2) →
      metadataDictFrom d toks = Except.error () := by
  induction toks with
  | nil => intro d h; rcases h with ⟨t, ht, _⟩; simp at ht
  | cons hd tl ih =>
    intro d h
    unfold metadataDictFrom
    rcases h with ⟨t, ht, hlen⟩
    rcases List.mem_cons.mp ht with rfl | htl
    · match hsp : splitEq t with
      | [k, v] => rw [hsp] at hlen; simp at hlen
      | [] => rfl
      | [k] => rfl
      | k :: v :: w :: rest => rfl
    · match hsp : splitEq hd with
      | [k, v] => exact ih _ ⟨t, htl, hlen⟩
      | [] => rfl
      | [k] => rfl
      | k :: v :: w :: rest => rfl

/-- If every token splits into exactly two parts, the dict construction
succeeds. -/
theorem metadataDictFrom_ok (toks : List String) :
    ∀ d : List (String × String),
      (∀ t ∈ toks, (splitEq t).length = 2) →
      ∃ md, metadataDictFrom d toks = Except.ok md := by
  induction toks with
  | nil => intro d _; exact ⟨d, rfl⟩
  | cons hd tl ih =>
    intro d h
    have hhd := h hd (List.mem_cons_self hd tl)
    unfold metadataDictFrom
    match hsp : splitEq hd with
    | [k, v] => exact ih _ (fun t ht => h t (List.mem_cons_of_mem hd ht))
    | [] => rw [hsp] at hhd; simp at hhd
    | [k] => rw [hsp] at hhd; simp at hhd
    | k :: v :: w :: rest => rw [hsp] at hhd; simp at hhd

/-! ### Structural lemmas about `resolveConfig` and `runStep` -/

/-- Inversion: a successful resolution emits exactly the logging-config
events, copies the dispatch-relevant raw options into the configuration
verbatim, forces the input kind from `--file`, and certifies that both
`parser.error` checks passed. -/
theorem resolveConfig_ok (opts : RawOptions) (ev : List Event) (cfg : Config)
    (h : resolveConfig opts = (ev, Except.ok cfg)) :
    ev = loggingEvents opts ∧
    cfg.fields = opts.fields ∧
    cfg.retrieve_requests = opts.retrieve_requests ∧
    cfg.requests_extra = opts.requests_extra ∧
    cfg.archive_requests = opts.archive_requests ∧
    cfg.assets_list = opts.assets_list ∧
    cfg.remote_url = opts.remote_url ∧
    cfg.dump_provenance = opts.dump_provenance ∧
    cfg.input = resolveInput opts.file opts.input ∧
    opts.model = some cfg.model ∧
    opts.models = false ∧
    (truthy opts.requests_extra && !opts.retrieve_requests &&
      !truthy opts.archive_requests) = false ∧
    (opts.remote_url.isSome && !opts.remote_token.isSome) = false := by
  unfold resolveConfig at h
  split at h
  · simp at h
  next hm =>
    split at h
    · simp at h
    next assets ha =>
      split at h
      · simp at h
      next path hp =>
        split at h
        · simp at h
        next md hmd =>
          split at h
          · simp at h
          next hq =>
            split at h
            · simp at h
            next hr =>
              split at h
              · simp at h
              next name hname =>
                rw [Prod.mk.injEq] at h
                obtain ⟨hev, hcfg⟩ := h
                have hc := Except.ok.inj hcfg
                subst hc
                refine ⟨hev.symm, rfl, rfl, rfl, rfl, rfl, rfl, rfl, rfl, hname, ?_, ?_, ?_⟩
                · exact Bool.not_eq_true _ ▸ hm
                · exact Bool.not_eq_true _ ▸ hq
                · exact Bool.not_eq_true _ ▸ hr

/-- `run` never raises an argparse usage error. -/
theorem runStep_not_usageError (prog : String) (argv : List String)
    (cfg : Config) (beh : ModelBehavior) :
    isUsageError (runStep prog argv cfg beh).2 = false := by
  unfold runStep
  repeat' split
  all_goals rfl

/-! ### Claim theorems -/

/-- Mode `run` would pick when both `--fields` and `--retrieve-requests` are
set: used by the C1 witness. -/
def cfgFieldsRetrieve : Config :=
  { baseCfg with fields := true, retrieve_requests := true }

/-- A model behaviour whose run raises `FileNotFoundError`. -/
def behRunRaises : ModelBehavior where
  runRaises := true
  provRaises := false

/-- A model behaviour whose provenance collection raises. -/
def behProvRaises : ModelBehavior where
  runRaises := false
  provRaises := true

/-- C1: for every invocation that proceeds past resolution, exactly one of
the execution modes ShowFields, PrintRequests, ListAssets, RemoteRun,
LocalRun executes, chosen in the source's fixed priority order (in
particular ShowFields wins whenever `--fields` is set, hence also when both
`--fields` and `--retrieve-requests` are set), and the three informational
modes terminate with exit status 0 without ever invoking the model's run or
remote operations. -/
theorem c1_exactly_one_mode (prog : String) (argv : List String) (cfg : Config)
    (beh : ModelBehavior) :
    ((runStep prog argv cfg beh).1.filter isModeEvent) = [modeEvent (modeOf cfg)] ∧
    (cfg.fields = true → modeOf cfg = ExecMode.showFields) ∧
    (informational (modeOf cfg) = true →
      (runStep prog argv cfg beh).2 = Outcome.exited 0 ∧
      Event.remote ∉ (runStep prog argv cfg beh).1 ∧
      Event.runLocal ∉ (runStep prog argv cfg beh).1) := by
  unfold runStep modeOf
  by_cases hf : cfg.fields = true
  · simp [hf, isModeEvent, modeEvent, informational]
  · simp only [Bool.not_eq_true] at hf
    by_cases hr : (cfg.retrieve_requests ||
        (truthy cfg.requests_extra && !truthy cfg.archive_requests)) = true
    · simp [hf, hr, isModeEvent, modeEvent, informational]
    · simp only [Bool.not_eq_true] at hr
      by_cases ha : cfg.assets_list = true
      · simp [hf, hr, ha, isModeEvent, modeEvent, informational]
      · simp only [Bool.not_eq_true] at ha
        by_cases hu : cfg.remote_url.isSome = true
        · by_cases hb : beh.runRaises = true
          · simp [hf, hr, ha, hu, hb, isModeEvent, modeEvent, informational]
          · simp only [Bool.not_eq_true] at hb
            match hd : cfg.dump_provenance with
            | none => simp [hf, hr, ha, hu, hb, hd, isModeEvent, modeEvent, informational]
            | some p =>
              by_cases hp : p = ""
              · simp [hf, hr, ha, hu, hb, hd, hp, isModeEvent, modeEvent, informational]
              · by_cases hpr : beh.provRaises = true
                · simp [hf, hr, ha, hu, hb, hd, hp, hpr, isModeEvent, modeEvent, informational]
                · simp only [Bool.not_eq_true] at hpr
                  simp [hf, hr, ha, hu, hb, hd, hp, hpr, isModeEvent, modeEvent, informational]
        · simp only [Bool.not_eq_true] at hu
          by_cases hb : beh.runRaises = true
          · simp [hf, hr, ha, hu, hb, isModeEvent, modeEvent, informational]
          · simp only [Bool.not_eq_true] at hb
            match hd : cfg.dump_provenance with
            | none => simp [hf, hr, ha, hu, hb, hd, isModeEvent, modeEvent, informational]
            | some p =>
              by_cases hp : p = ""
              · simp [hf, hr, ha, hu, hb, hd, hp, isModeEvent, modeEvent, informational]
              · by_cases hpr : beh.provRaises = true
                · simp [hf, hr, ha, hu, hb, hd, hp, hpr, isModeEvent, modeEvent, informational]
                · simp only [Bool.not_eq_true] at hpr
                  simp [hf, hr, ha, hu, hb, hd, hp, hpr, isModeEvent, modeEvent, informational]

/-- C1 witness: with both `--fields` and `--retrieve-requests` set,
ShowFields wins, exactly that one mode executes, and the invocation exits
with status 0. -/
theorem c1_witness :
    modeOf cfgFieldsRetrieve = ExecMode.showFields ∧
    ((runStep "prog" [] cfgFieldsRetrieve baseBeh).1.filter isModeEvent) =
      [Event.printFields] ∧
    (runStep "prog" [] cfgFieldsRetrieve baseBeh).2 = Outcome.exited 0 :=
  have h := c1_exactly_one_mode "prog" [] cfgFieldsRetrieve baseBeh
  ⟨h.2.1 rfl, h.1, (h.2.2 (by decide)).1⟩

/-- `baseCfg` with a provenance dump path. -/
def baseCfgProv : Config := { baseCfg with dump_provenance := some "prov.json" }

/-- C2: when the run (local or remote) raises a missing-file failure, the
program logs the underlying error, a hint naming the model, and a
remediation command equal to `shlex.join` of the original invocation with
`--download-assets` inserted immediately after the program name (all
original arguments preserved in order), then exits with status 1 — a
non-zero status distinct from the usage-error status 2 — having invoked the
run exactly once (no retry). -/
theorem c2_missing_asset_remediation (prog : String) (argv : List String)
    (cfg : Config) (beh : ModelBehavior)
    (hraise : beh.runRaises = true)
    (hfields : cfg.fields = false)
    (hreq : (cfg.retrieve_requests ||
      (truthy cfg.requests_extra && !truthy cfg.archive_requests)) = false)
    (hassets : cfg.assets_list = false) :
    runStep prog argv cfg beh =
      ([Event.loadModel cfg.model,
        (if cfg.remote_url.isSome then Event.remote else Event.runLocal),
        Event.logException,
        Event.logError ("It is possible that some files requited by " ++
          cfg.model ++ " are missing."),
        Event.logError "Rerun the command as:",
        Event.logError (shlexJoin (prog :: "--download-assets" :: argv))],
       Outcome.exited 1) ∧
    ((runStep prog argv cfg beh).1.filter isRunEvent).length = 1 ∧
    exitCodeOf (Outcome.exited 1) = 1 ∧
    isUsageError (Outcome.exited 1) = false ∧
    exitCodeOf (Outcome.exited 1) ≠ usageExitStatus := by
  refine ⟨?_, ?_, rfl, rfl, by decide⟩
  · unfold runStep
    simp [hraise, hfields, hreq, hassets]
  · unfold runStep
    by_cases hu : cfg.remote_url.isSome = true
    · simp [hraise, hfields, hreq, hassets, hu, isRunEvent]
    · simp only [Bool.not_eq_true] at hu
      simp [hraise, hfields, hreq, hassets, hu, isRunEvent]

/-- C2 witness: for the invocation `prog --only-gpu X` (a local run) whose
run raises the missing-file failure, the logged remediation command
evaluates to `prog --download-assets --only-gpu X` and the exit status is 1. -/
theorem c2_witness :
    behRunRaises.runRaises = true ∧ baseCfg.fields = false ∧
    baseCfg.assets_list = false ∧
    runStep "prog" ["--only-gpu", "X"] baseCfg behRunRaises =
      ([Event.loadModel "modelx", Event.runLocal, Event.logException,
        Event.logError "It is possible that some files requited by modelx are missing.",
        Event.logError "Rerun the command as:",
        Event.logError "prog --download-assets --only-gpu X"],
       Outcome.exited 1) ∧
    exitCodeOf (Outcome.exited 1) ≠ usageExitStatus :=
  have h := c2_missing_asset_remediation "prog" ["--only-gpu", "X"] baseCfg
    behRunRaises rfl rfl rfl rfl
  ⟨rfl, rfl, rfl, h.1.trans (by decide), h.2.2.2.2⟩

/-- C10 (implicit): when a provenance output path is configured, the file is
opened for writing (created or truncated) strictly before the model's
provenance operation is called, so if provenance collection fails the
(empty) file remains at the configured path and nothing is written to it:
the dump is not atomic on error. -/
theorem c10_truncate_before_provenance (prog : String) (argv : List String)
    (cfg : Config) (beh : ModelBehavior) (p : String)
    (hfields : cfg.fields = false)
    (hreq : (cfg.retrieve_requests ||
      (truthy cfg.requests_extra && !truthy cfg.archive_requests)) = false)
    (hassets : cfg.assets_list = false)
    (hrun : beh.runRaises = false)
    (hprov : beh.provRaises = true)
    (hp : cfg.dump_provenance = some p) (hpne : p ≠ "") :
    runStep prog argv cfg beh =
      ([Event.loadModel cfg.model,
        (if cfg.remote_url.isSome then Event.remote else Event.runLocal),
        Event.finalise, Event.openTruncate p, Event.callProvenance],
       Outcome.raised) ∧
    Event.writeJson p ∉ (runStep prog argv cfg beh).1 := by
  have h1 : runStep prog argv cfg beh =
      ([Event.loadModel cfg.model,
        (if cfg.remote_url.isSome then Event.remote else Event.runLocal),
        Event.finalise, Event.openTruncate p, Event.callProvenance],
       Outcome.raised) := by
    unfold runStep
    simp [hfields, hreq, hassets, hrun, hprov, hp, hpne]
  refine ⟨h1, ?_⟩
  rw [h1]
  by_cases hu : cfg.remote_url.isSome = true
  · simp [hu]
  · simp only [Bool.not_eq_true] at hu
    simp [hu]

/-- C10 witness: a concrete local run with `--dump-provenance prov.json`
whose provenance collection raises leaves the truncating open in the trace
with no subsequent write. -/
theorem c10_witness :
    (baseCfgProv.dump_provenance = some "prov.json") ∧
    runStep "prog" [] baseCfgProv behProvRaises =
      ([Event.loadModel "modelx", Event.runLocal, Event.finalise,
        Event.openTruncate "prov.json", Event.callProvenance],
       Outcome.raised) ∧
    Event.writeJson "prov.json" ∉ (runStep "prog" [] baseCfgProv behProvRaises).1 :=
  have h := c10_truncate_before_provenance "prog" [] baseCfgProv behProvRaises
    "prov.json" rfl rfl rfl rfl rfl rfl (by decide)
  ⟨rfl, h.1.trans (by decide), h.2⟩
/-- Options for the C3 counterexample: `--metadata a=b=c`. -/
def c3OptsMulti : RawOptions := { baseOpts with metadata := some ["a=b=c"] }

/-- Options for the C3 counterexample: `--metadata abc` (no `=`). -/
def c3OptsNoEq : RawOptions := { baseOpts with metadata := some ["abc"] }

/-- C3 counterexample: the claim says metadata tokens are split on the
*first* `"="` (so `a=b=c` would resolve to the entry `("a", "b=c")`) and
that a token lacking `"="` fails with a *UsageError*.  The code instead
splits on every `"="` and lets `dict` raise: `a=b=c` aborts resolution with
an uncaught `ValueError`, and so does `abc`, which is not a usage error. -/
theorem c3_counterexample :
    metadataDict ["a=b=c"] = Except.error () ∧
    splitFirstMap ["a=b=c"] = some [("a", "b=c")] ∧
    (resolveConfig c3OptsMulti).2 = Except.error Outcome.valueError ∧
    (resolveConfig c3OptsNoEq).2 = Except.error Outcome.valueError ∧
    isUsageError Outcome.valueError = false ∧
    exitCodeOf Outcome.valueError ≠ usageExitStatus := by
  refine ⟨rfl, rfl, rfl, rfl, rfl, by decide⟩

/-- C3 amended: the resolved metadata map is built by splitting each token
on every `"="` and requiring exactly two parts (one key, one value, as in
`k=v`); whenever any token does not split into exactly two parts (no `"="`,
or more than one), resolution aborts with an uncaught `ValueError` — a
traceback exit distinct from a `UsageError`. -/
theorem c3_metadata_amended (prog : String) (argv : List String)
    (opts : RawOptions) (beh : ModelBehavior) (name : String) (toks : List String)
    (hmodels : opts.models = false) (hmodel : opts.model = some name)
    (hmd : opts.metadata = some toks)
    (hbad : ∃ t ∈ toks, (splitEq t).length ≠ 2) :
    (resolveConfig opts).2 = Except.error Outcome.valueError ∧
    (mainStep prog argv opts beh).2 = Outcome.valueError ∧
    (∀ k v : String, splitEq (k ++ "=" ++ v) = [k, v] →
      metadataDict [k ++ "=" ++ v] = Except.ok [(k, v)]) ∧
    isUsageError Outcome.valueError = false := by
  have herr : resolveMetadata opts.metadata opts.expver opts.class_ =
      Except.error () := by
    rw [hmd]
    unfold resolveMetadata
    rw [show (some toks).getD [] = toks from rfl,
      show metadataDict toks = metadataDictFrom [] toks from rfl,
      metadataDictFrom_error toks [] hbad]
  have hres : (resolveConfig opts).2 = Except.error Outcome.valueError := by
    unfold resolveConfig
    rw [if_neg (by rw [hmodels]; exact Bool.false_ne_true)]
    have ha : resolveAssets opts = Except.ok
        (if opts.assets_sub_directory then pathJoin opts.assets name else opts.assets) := by
      unfold resolveAssets
      by_cases hs : opts.assets_sub_directory = true
      · rw [if_pos hs, hmodel, if_pos hs]
      · rw [if_neg hs, if_neg hs]
    rw [ha]
    have hp : resolvePath opts = Except.ok (opts.path.getD (name ++ ".grib")) := by
      unfold resolvePath
      match hpath : opts.path with
      | some p => rfl
      | none => rw [hmodel]; rfl
    rw [hp, herr]
  refine ⟨hres, ?_, ?_, rfl⟩
  · unfold mainStep
    match hrc : resolveConfig opts with
    | (ev, Except.error o) =>
      have : o = Outcome.valueError := by
        have := hres
        rw [hrc] at this
        exact (Except.error.inj this).symm ▸ rfl
      simp only [this]
    | (ev, Except.ok cfg) =>
      exfalso
      rw [hrc] at hres
      exact Except.noConfusion hres
  · intro k v hkv
    unfold metadataDict metadataDictFrom
    rw [hkv]
    rfl

/-- C3 amended witness: the concrete invocation `--metadata a=b=c` of model
`modelx` aborts with the uncaught `ValueError`. -/
theorem c3_amended_witness :
    c3OptsMulti.models = false ∧ c3OptsMulti.model = some "modelx" ∧
    c3OptsMulti.metadata = some ["a=b=c"] ∧
    (∃ t ∈ ["a=b=c"], (splitEq t).length ≠ 2) ∧
    (mainStep "prog" ["--metadata", "a=b=c", "modelx"] c3OptsMulti baseBeh).2 =
      Outcome.valueError :=
  have h := c3_metadata_amended "prog" ["--metadata", "a=b=c", "modelx"]
    c3OptsMulti baseBeh "modelx" ["a=b=c"] rfl rfl rfl
    ⟨"a=b=c", by decide, by decide⟩
  ⟨rfl, rfl, rfl, ⟨"a=b=c", by decide, by decide⟩, h.2.1⟩
/-- `resolveAssets` succeeds whenever the model positional was declared. -/
theorem resolveAssets_ok (opts : RawOptions) (name : String)
    (h : opts.model = some name) :
    resolveAssets opts = Except.ok
      (if opts.assets_sub_directory then pathJoin opts.assets name
       else opts.assets) := by
  unfold resolveAssets
  by_cases hs : opts.assets_sub_directory = true
  · rw [if_pos hs, h, if_pos hs]
  · rw [if_neg hs, if_neg hs]

/-- `resolvePath` succeeds whenever the model positional was declared. -/
theorem resolvePath_ok (opts : RawOptions) (name : String)
    (h : opts.model = some name) :
    resolvePath opts = Except.ok (opts.path.getD (name ++ ".grib")) := by
  unfold resolvePath
  match hpath : opts.path with
  | some p => rfl
  | none => rw [h]; rfl

/-- For an invocation with the model positional declared and well-formed
metadata, `resolveConfig` reduces to the two `parser.error` checks around
the built configuration. -/
theorem resolveConfig_checks (opts : RawOptions) (name : String)
    (md : List (String × String))
    (hmodels : opts.models = false) (hmodel : opts.model = some name)
    (hmd : resolveMetadata opts.metadata opts.expver opts.class_ = Except.ok md) :
    resolveConfig opts =
      (loggingEvents opts,
        if truthy opts.requests_extra && !opts.retrieve_requests &&
            !truthy opts.archive_requests then
          Except.error (Outcome.usageError
            "You need to specify --retrieve-requests or --archive-requests")
        else if opts.remote_url.isSome && !opts.remote_token.isSome then
          Except.error (Outcome.usageError "You need to specify --remote-token")
        else
          Except.ok (buildConfig opts name
            (if opts.assets_sub_directory then pathJoin opts.assets name
             else opts.assets)
            (opts.path.getD (name ++ ".grib")) md)) := by
  unfold resolveConfig
  rw [if_neg (by rw [hmodels]; exact Bool.false_ne_true)]
  rw [resolveAssets_ok opts name hmodel, resolvePath_ok opts name hmodel, hmd]
  dsimp only
  rw [hmodel]
  by_cases hq : (truthy opts.requests_extra && !opts.retrieve_requests &&
      !truthy opts.archive_requests) = true
  · rw [if_pos hq, if_pos hq]
  · rw [if_neg hq, if_neg hq]
    by_cases hr : (opts.remote_url.isSome && !opts.remote_token.isSome) = true
    · rw [if_pos hr, if_pos hr]
    · rw [if_neg hr, if_neg hr]

/-- Options for the C4 counterexample: a non-empty `--requests-extra`
together with *both* `--retrieve-requests` and `--archive-requests`. -/
def c4OptsBoth : RawOptions :=
  { baseOpts with
      retrieve_requests := true
      archive_requests := some "reqs.txt"
      requests_extra := some "k=v" }

/-- Options for the C4 amended witness: a non-empty `--requests-extra`
with neither `--retrieve-requests` nor `--archive-requests`. -/
def c4OptsNeither : RawOptions := { baseOpts with requests_extra := some "k=v" }

/-- C4 counterexample: the claim demands that `--requests-extra` with both
`--retrieve-requests` and `--archive-requests` set also fails ("exactly
one").  The code accepts that combination: resolution raises no usage error
and the invocation prints the requests and exits 0. -/
theorem c4_counterexample :
    truthy c4OptsBoth.requests_extra = true ∧
    c4OptsBoth.retrieve_requests = true ∧
    truthy c4OptsBoth.archive_requests = true ∧
    isUsageError (mainStep "prog"
      ["--retrieve-requests", "--archive-requests", "reqs.txt",
       "--requests-extra", "k=v", "modelx"] c4OptsBoth baseBeh).2 = false ∧
    (mainStep "prog"
      ["--retrieve-requests", "--archive-requests", "reqs.txt",
       "--requests-extra", "k=v", "modelx"] c4OptsBoth baseBeh).2 =
      Outcome.exited 0 :=
  ⟨rfl, rfl, rfl, rfl, rfl⟩

/-- C4 amended: if a non-empty `--requests-extra` is supplied (and the
invocation otherwise resolves), then **at least one** of
`--retrieve-requests` or a non-empty `--archive-requests` must also be set:
the UsageError naming both alternatives is raised exactly when both are
absent; in particular supplying both is accepted. -/
theorem c4_requests_extra_amended (prog : String) (argv : List String)
    (opts : RawOptions) (beh : ModelBehavior) (name : String)
    (md : List (String × String))
    (hmodels : opts.models = false) (hmodel : opts.model = some name)
    (hmd : resolveMetadata opts.metadata opts.expver opts.class_ = Except.ok md)
    (hextra : truthy opts.requests_extra = true)
    (hremote : (opts.remote_url.isSome && !opts.remote_token.isSome) = false) :
    ((resolveConfig opts).2 = Except.error (Outcome.usageError
        "You need to specify --retrieve-requests or --archive-requests") ↔
      (opts.retrieve_requests = false ∧ truthy opts.archive_requests = false)) ∧
    ((mainStep prog argv opts beh).2 = Outcome.usageError
        "You need to specify --retrieve-requests or --archive-requests" ↔
      (opts.retrieve_requests = false ∧ truthy opts.archive_requests = false)) := by
  have hkey := resolveConfig_checks opts name md hmodels hmodel hmd
  by_cases hq : (truthy opts.requests_extra && !opts.retrieve_requests &&
      !truthy opts.archive_requests) = true
  · have hcond : opts.retrieve_requests = false ∧ truthy opts.archive_requests = false := by
      simp only [Bool.and_eq_true, Bool.not_eq_true'] at hq
      exact ⟨hq.1.2, hq.2⟩
    rw [if_pos hq] at hkey
    constructor
    · rw [hkey]
      exact ⟨fun _ => hcond, fun _ => rfl⟩
    · unfold mainStep
      rw [hkey]
      exact ⟨fun _ => hcond, fun _ => rfl⟩
  · have hcond : ¬(opts.retrieve_requests = false ∧ truthy opts.archive_requests = false) := by
      intro hc
      exact hq (by rw [hextra, hc.1, hc.2]; rfl)
    rw [if_neg hq, if_neg (by rw [hremote]; exact Bool.false_ne_true)] at hkey
    constructor
    · rw [hkey]
      exact ⟨fun he => absurd (Except.noConfusion he) id,
             fun hc => absurd hc hcond⟩
    · unfold mainStep
      rw [hkey]
      constructor
      · intro he
        exfalso
        have hnu := runStep_not_usageError prog argv
          (buildConfig opts name
            (if opts.assets_sub_directory then pathJoin opts.assets name
             else opts.assets)
            (opts.path.getD (name ++ ".grib")) md) beh
        rw [he] at hnu
        simp [isUsageError] at hnu
      · intro hc
        exact absurd hc hcond

/-- C4 amended witness: `--requests-extra k=v` with neither
`--retrieve-requests` nor `--archive-requests` fails with the UsageError
naming both alternatives. -/
theorem c4_amended_witness :
    truthy c4OptsNeither.requests_extra = true ∧
    c4OptsNeither.retrieve_requests = false ∧
    truthy c4OptsNeither.archive_requests = false ∧
    (mainStep "prog" ["--requests-extra", "k=v", "modelx"] c4OptsNeither
      baseBeh).2 = Outcome.usageError
        "You need to specify --retrieve-requests or --archive-requests" :=
  have h := c4_requests_extra_amended "prog" ["--requests-extra", "k=v", "modelx"]
    c4OptsNeither baseBeh "modelx" [] rfl rfl rfl rfl rfl
  ⟨rfl, rfl, rfl, h.2.mpr ⟨rfl, rfl⟩⟩
/-- The resolution-phase event list never contains model-loading or
run/remote events. -/
theorem loggingEvents_no_exec (opts : RawOptions) :
    (loggingEvents opts).filter isRunEvent = [] ∧
    (loggingEvents opts).filter isLoadEvent = [] := by
  unfold loggingEvents
  by_cases hc : (!opts.fields && !opts.retrieve_requests) = true
  · rw [if_pos hc]
    exact ⟨rfl, rfl⟩
  · rw [if_neg hc]
    exact ⟨rfl, rfl⟩

/-- Options for the C5 witness: a remote URL resolved from the flag, no
token resolvable anywhere. -/
def c5Opts : RawOptions := { baseOpts with remote_url := some "https://api.example" }

/-- C5: whenever a remote endpoint URL is supplied — through `--remote-url`
or the `AI_MODELS_REMOTE_URL` environment fallback — and no auth token is
resolvable from `--remote-token` or the `AI_MODELS_REMOTE_TOKEN` fallback,
resolution fails with a UsageError before any execution: no model is loaded
and no run or remote operation is invoked. -/
theorem c5_remote_token_required (prog : String) (argv : List String)
    (opts : RawOptions) (beh : ModelBehavior) (name url : String)
    (urlFlag tokenFlag envUrl envToken : Option String)
    (md : List (String × String))
    (hmodels : opts.models = false) (hmodel : opts.model = some name)
    (hmd : resolveMetadata opts.metadata opts.expver opts.class_ = Except.ok md)
    (hurl : opts.remote_url = optionFallback urlFlag envUrl)
    (hurlSome : optionFallback urlFlag envUrl = some url)
    (htok : opts.remote_token = optionFallback tokenFlag envToken)
    (htokNone : optionFallback tokenFlag envToken = none) :
    isUsageError (mainStep prog argv opts beh).2 = true ∧
    (mainStep prog argv opts beh).1.filter isRunEvent = [] ∧
    (mainStep prog argv opts beh).1.filter isLoadEvent = [] := by
  have hkey := resolveConfig_checks opts name md hmodels hmodel hmd
  have hrem : (opts.remote_url.isSome && !opts.remote_token.isSome) = true := by
    rw [hurl, hurlSome, htok, htokNone]
    rfl
  by_cases hq : (truthy opts.requests_extra && !opts.retrieve_requests &&
      !truthy opts.archive_requests) = true
  · rw [if_pos hq] at hkey
    unfold mainStep
    rw [hkey]
    exact ⟨rfl, (loggingEvents_no_exec opts).1, (loggingEvents_no_exec opts).2⟩
  · rw [if_neg hq, if_pos hrem] at hkey
    unfold mainStep
    rw [hkey]
    exact ⟨rfl, (loggingEvents_no_exec opts).1, (loggingEvents_no_exec opts).2⟩

/-- C5 witness: `--remote-url https://api.example` with no token flag and no
token environment variable fails with a usage error and performs no
execution. -/
theorem c5_witness :
    c5Opts.remote_url = optionFallback (some "https://api.example") none ∧
    c5Opts.remote_token = optionFallback none none ∧
    isUsageError (mainStep "prog" ["--remote-url", "https://api.example", "modelx"]
      c5Opts baseBeh).2 = true ∧
    (mainStep "prog" ["--remote-url", "https://api.example", "modelx"]
      c5Opts baseBeh).1.filter isRunEvent = [] :=
  have h := c5_remote_token_required "prog"
    ["--remote-url", "https://api.example", "modelx"] c5Opts baseBeh
    "modelx" "https://api.example" (some "https://api.example") none none none []
    rfl rfl rfl rfl rfl rfl rfl
  ⟨rfl, rfl, h.1, h.2.1⟩

/-- C6: when the metadata list resolves, a dedicated `--expver`
(respectively `--class`) option's value is the one found under the key
`"expver"` (respectively `"class"`) in the resolved metadata map: the
dedicated options always overwrite the generic `--metadata` list. -/
theorem c6_dedicated_overrides (metadata : Option (List String))
    (e c : Option String) (md : List (String × String))
    (h : resolveMetadata metadata e c = Except.ok md) :
    (∀ ev, e = some ev → dictLookup "expver" md = some ev) ∧
    (∀ cv, c = some cv → dictLookup "class" md = some cv) := by
  unfold resolveMetadata at h
  match hbase : metadataDict (metadata.getD []) with
  | Except.error err =>
    rw [hbase] at h
    exact absurd h (by simp)
  | Except.ok md0 =>
    rw [hbase] at h
    dsimp only at h
    constructor
    · intro ev he
      subst he
      match hc : c with
      | none =>
        dsimp only at h
        have hmd : md = dictInsert md0 "expver" ev := (Except.ok.inj h).symm
        rw [hmd]
        exact dictLookup_insert_self md0 "expver" ev
      | some cv =>
        dsimp only at h
        have hmd : md = dictInsert (dictInsert md0 "expver" ev) "class" cv :=
          (Except.ok.inj h).symm
        rw [hmd, dictLookup_insert_other _ "expver" "class" cv (by decide)]
        exact dictLookup_insert_self md0 "expver" ev
    · intro cv hc
      subst hc
      match he : e with
      | none =>
        dsimp only at h
        have hmd : md = dictInsert md0 "class" cv := (Except.ok.inj h).symm
        rw [hmd]
        exact dictLookup_insert_self md0 "class" cv
      | some ev =>
        dsimp only at h
        have hmd : md = dictInsert (dictInsert md0 "expver" ev) "class" cv :=
          (Except.ok.inj h).symm
        rw [hmd]
        exact dictLookup_insert_self _ "class" cv

/-- C6 witness: `--metadata expver=aaaa --metadata class=rd` together with
`--expver bbbb --class od` resolves to a map whose `"expver"` is `bbbb` and
whose `"class"` is `od`. -/
theorem c6_witness :
    resolveMetadata (some ["expver=aaaa", "class=rd"]) (some "bbbb") (some "od") =
      Except.ok [("expver", "bbbb"), ("class", "od")] ∧
    dictLookup "expver" [("expver", "bbbb"), ("class", "od")] = some "bbbb" ∧
    dictLookup "class" [("expver", "bbbb"), ("class", "od")] = some "od" :=
  have h := c6_dedicated_overrides (some ["expver=aaaa", "class=rd"])
    (some "bbbb") (some "od") [("expver", "bbbb"), ("class", "od")] rfl
  ⟨rfl, h.1 "bbbb" rfl, h.2 "od" rfl⟩
/-- Options for the C7 witness: the `--models` invocation; the `model`
positional was never declared, so it is absent from the namespace. -/
def c7Opts : RawOptions := { baseOpts with models := true, model := none }

/-- C7: with the `--models` token present, the `model` positional argument
is not declared in the grammar at all, the available models are printed,
the process exits successfully with status 0, and no model is ever loaded. -/
theorem c7_models_flag (prog : String) (argv : List String)
    (opts : RawOptions) (beh : ModelBehavior)
    (hargv : argv.contains "--models" = true)
    (hflag : opts.models = true) :
    modelArgRequired argv = false ∧
    mainStep prog argv opts beh = ([Event.printModels], Outcome.exited 0) ∧
    exitCodeOf (mainStep prog argv opts beh).2 = 0 ∧
    (mainStep prog argv opts beh).1.filter isLoadEvent = [] := by
  have hmain : mainStep prog argv opts beh = ([Event.printModels], Outcome.exited 0) := by
    unfold mainStep resolveConfig
    rw [if_pos hflag]
  refine ⟨?_, hmain, ?_, ?_⟩
  · unfold modelArgRequired
    rw [hargv]
    rfl
  · rw [hmain]
    rfl
  · rw [hmain]
    rfl

/-- C7 witness: the invocation `prog --models` lists the models, exits 0,
and loads nothing. -/
theorem c7_witness :
    (["--models"].contains "--models" = true) ∧
    c7Opts.models = true ∧
    modelArgRequired ["--models"] = false ∧
    mainStep "prog" ["--models"] c7Opts baseBeh =
      ([Event.printModels], Outcome.exited 0) :=
  have h := c7_models_flag "prog" ["--models"] c7Opts baseBeh (by decide) rfl
  ⟨by decide, rfl, h.1, h.2.1⟩

/-- The options of the C8 witness: `--file INPUT.dat` with the (default)
nominal input source `mars`. -/
def c8Opts : RawOptions := { baseOpts with file := some "INPUT.dat" }

/-- The configuration the C8 witness resolves to. -/
def c8Cfg : Config := { baseCfg with input := "file" }

/-- C8: whenever an explicit input file path is given via `--file`, every
successfully resolved configuration carries input source kind `"file"`,
whatever the nominal `--input` value was. -/
theorem c8_file_forces_input (opts : RawOptions) (f : String)
    (ev : List Event) (cfg : Config)
    (hf : opts.file = some f)
    (hres : resolveConfig opts = (ev, Except.ok cfg)) :
    cfg.input = "file" := by
  obtain ⟨-, -, -, -, -, -, -, -, hinput, -⟩ := resolveConfig_ok opts ev cfg hres
  rw [hinput]
  unfold resolveInput
  rw [hf]
  rfl

/-- C8 witness: `--file INPUT.dat` with `--input mars` resolves to input
kind `file`, not `mars`. -/
theorem c8_witness :
    c8Opts.file = some "INPUT.dat" ∧
    c8Opts.input = "mars" ∧
    (resolveConfig c8Opts).2 = Except.ok c8Cfg ∧
    c8Cfg.input = "file" :=
  ⟨rfl, rfl, rfl,
    c8_file_forces_input c8Opts "INPUT.dat" (resolveConfig c8Opts).1 c8Cfg rfl rfl⟩
/-- Options for the C9 witness: a plain `--retrieve-requests` query. -/
def c9Opts : RawOptions := { baseOpts with retrieve_requests := true }

/-- `run` never configures logging. -/
theorem configLogging_not_in_runStep (prog : String) (argv : List String)
    (cfg : Config) (beh : ModelBehavior) (lvl : String) :
    Event.configLogging lvl ∉ (runStep prog argv cfg beh).1 := by
  unfold runStep
  repeat' split
  all_goals simp

/-- A logging-configuration event is emitted only when neither `--fields`
nor `--retrieve-requests` is set. -/
theorem mem_loggingEvents_inv (opts : RawOptions) (lvl : String)
    (h : Event.configLogging lvl ∈ loggingEvents opts) :
    opts.fields = false ∧ opts.retrieve_requests = false := by
  unfold loggingEvents at h
  by_cases hc : (!opts.fields && !opts.retrieve_requests) = true
  · simp only [Bool.and_eq_true, Bool.not_eq_true'] at hc
    exact hc
  · rw [if_neg hc] at h
    simp at h

/-- The resolution-phase event list contains only logging configuration. -/
theorem printFields_not_in_loggingEvents (opts : RawOptions) :
    Event.printFields ∉ loggingEvents opts := by
  unfold loggingEvents
  split
  · simp
  · simp

/-- The resolution-phase event list contains only logging configuration. -/
theorem printRequests_not_in_loggingEvents (opts : RawOptions) :
    Event.printRequests ∉ loggingEvents opts := by
  unfold loggingEvents
  split
  · simp
  · simp

/-- `model.print_fields()` runs only in the ShowFields branch. -/
theorem printFields_in_runStep_inv (prog : String) (argv : List String)
    (cfg : Config) (beh : ModelBehavior)
    (h : Event.printFields ∈ (runStep prog argv cfg beh).1) :
    cfg.fields = true := by
  by_cases hf : cfg.fields = true
  · exact hf
  · exfalso
    unfold runStep at h
    rw [if_neg hf] at h
    revert h
    repeat' split
    all_goals simp

/-- `model.print_requests()` runs only in the PrintRequests branch. -/
theorem printRequests_in_runStep_inv (prog : String) (argv : List String)
    (cfg : Config) (beh : ModelBehavior)
    (h : Event.printRequests ∈ (runStep prog argv cfg beh).1) :
    cfg.fields = false ∧
    (cfg.retrieve_requests ||
      (truthy cfg.requests_extra && !truthy cfg.archive_requests)) = true := by
  unfold runStep at h
  by_cases hf : cfg.fields = true
  · rw [if_pos hf] at h
    simp at h
  · rw [if_neg hf] at h
    refine ⟨Bool.not_eq_true _ ▸ hf, ?_⟩
    by_cases hr : (cfg.retrieve_requests ||
        (truthy cfg.requests_extra && !truthy cfg.archive_requests)) = true
    · exact hr
    · exfalso
      rw [if_neg hr] at h
      revert h
      repeat' split
      all_goals simp

/-- During a failed resolution, the emitted events are the models listing,
nothing, or the logging configuration. -/
theorem resolveConfig_error_trace (opts : RawOptions) (ev : List Event)
    (o : Outcome) (h : resolveConfig opts = (ev, Except.error o)) :
    ev = [Event.printModels] ∨ ev = [] ∨ ev = loggingEvents opts := by
  unfold resolveConfig at h
  split at h
  · exact Or.inl (congrArg Prod.fst h).symm
  · split at h
    · exact Or.inr (Or.inl (congrArg Prod.fst h).symm)
    · split at h
      · exact Or.inr (Or.inl (congrArg Prod.fst h).symm)
      · split at h
        · exact Or.inr (Or.inr (congrArg Prod.fst h).symm)
        · split at h
          · exact Or.inr (Or.inr (congrArg Prod.fst h).symm)
          · split at h
            · exact Or.inr (Or.inr (congrArg Prod.fst h).symm)
            · split at h
              · exact Or.inr (Or.inr (congrArg Prod.fst h).symm)
              · simp at h

/-- C9: ShowFields and PrintRequests invocations never configure logging
before producing their output — logging is configured exactly when neither
`--fields` nor `--retrieve-requests` is set — and every invocation that
actually reaches the PrintRequests branch (including any that would get
there via `--requests-extra` without `--archive-requests`) has
`--retrieve-requests` set. -/
theorem c9_quiet_modes (prog : String) (argv : List String)
    (opts : RawOptions) (beh : ModelBehavior) :
    (∀ lvl, Event.configLogging lvl ∈ (mainStep prog argv opts beh).1 →
      opts.fields = false ∧ opts.retrieve_requests = false) ∧
    (Event.printFields ∈ (mainStep prog argv opts beh).1 →
      ∀ lvl, Event.configLogging lvl ∉ (mainStep prog argv opts beh).1) ∧
    (Event.printRequests ∈ (mainStep prog argv opts beh).1 →
      opts.retrieve_requests = true ∧
      ∀ lvl, Event.configLogging lvl ∉ (mainStep prog argv opts beh).1) := by
  unfold mainStep
  match hrc : resolveConfig opts with
  | (ev, Except.error o) =>
    dsimp only
    rcases resolveConfig_error_trace opts ev o hrc with hev | hev | hev
    · subst hev
      refine ⟨?_, ?_, ?_⟩
      · intro lvl h; simp at h
      · intro h; simp at h
      · intro h; simp at h
    · subst hev
      refine ⟨?_, ?_, ?_⟩
      · intro lvl h; simp at h
      · intro h; simp at h
      · intro h; simp at h
    · subst hev
      refine ⟨?_, ?_, ?_⟩
      · intro lvl h
        exact mem_loggingEvents_inv opts lvl h
      · intro h
        exact absurd h (printFields_not_in_loggingEvents opts)
      · intro h
        exact absurd h (printRequests_not_in_loggingEvents opts)
  | (ev, Except.ok cfg) =>
    dsimp only
    obtain ⟨hev, hfields, hret, hextra, harch, -, -, -, -, -, -, hcheck, -⟩ :=
      resolveConfig_ok opts ev cfg hrc
    subst hev
    have hrsplit : ∀ e : Event,
        e ∈ loggingEvents opts ++ (runStep prog argv cfg beh).1 ↔
        (e ∈ loggingEvents opts ∨ e ∈ (runStep prog argv cfg beh).1) := by
      intro e
      exact List.mem_append
    refine ⟨?_, ?_, ?_⟩
    · intro lvl h
      rcases (hrsplit _).mp h with h | h
      · exact mem_loggingEvents_inv opts lvl h
      · exact absurd h (configLogging_not_in_runStep prog argv cfg beh lvl)
    · intro h lvl hc
      rcases (hrsplit _).mp h with h | h
      · exact printFields_not_in_loggingEvents opts h
      · have hcf : cfg.fields = true := printFields_in_runStep_inv prog argv cfg beh h
        rcases (hrsplit _).mp hc with hc | hc
        · have := (mem_loggingEvents_inv opts lvl hc).1
          rw [hfields] at hcf
          rw [this] at hcf
          exact Bool.false_ne_true hcf
        · exact configLogging_not_in_runStep prog argv cfg beh lvl hc
    · intro h
      have hpr : Event.printRequests ∈ (runStep prog argv cfg beh).1 := by
        rcases (hrsplit _).mp h with h | h
        · exact absurd h (printRequests_not_in_loggingEvents opts)
        · exact h
      obtain ⟨-, hcond⟩ := printRequests_in_runStep_inv prog argv cfg beh hpr
      rw [hret, hextra, harch] at hcond
      have hretr : opts.retrieve_requests = true := by
        by_cases hr : opts.retrieve_requests = true
        · exact hr
        · exfalso
          have hr0 : opts.retrieve_requests = false := Bool.not_eq_true _ ▸ hr
          rw [hr0, Bool.false_or] at hcond
          rw [hr0] at hcheck
          simp only [Bool.not_false, Bool.and_true] at hcheck
          rw [Bool.and_eq_true] at hcond
          rw [hcond.1, hcond.2, Bool.and_true] at hcheck
          exact Bool.true_eq_false ▸ hcheck
      refine ⟨hretr, ?_⟩
      intro lvl hc
      rcases (hrsplit _).mp hc with hc | hc
      · exact absurd (mem_loggingEvents_inv opts lvl hc).2
          (by rw [hretr]; exact fun he => Bool.false_ne_true he.symm)
      · exact configLogging_not_in_runStep prog argv cfg beh lvl hc

/-- C9 witness: a `--retrieve-requests` invocation reaches PrintRequests
while never configuring logging. -/
theorem c9_witness :
    Event.printRequests ∈
      (mainStep "prog" ["--retrieve-requests", "modelx"] c9Opts baseBeh).1 ∧
    c9Opts.retrieve_requests = true ∧
    Event.configLogging "INFO" ∉
      (mainStep "prog" ["--retrieve-requests", "modelx"] c9Opts baseBeh).1 :=
  have h := c9_quiet_modes "prog" ["--retrieve-requests", "modelx"] c9Opts baseBeh
  have hmem : Event.printRequests ∈
      (mainStep "prog" ["--retrieve-requests", "modelx"] c9Opts baseBeh).1 := by decide
  ⟨hmem, (h.2.2 hmem).1, (h.2.2 hmem).2 "INFO"⟩
end AiModels
